import Mathlib

/-!
Shallow embedding of the khairi-payment-v2 backend (src/index.js).

The repository holds two near-duplicate Express services:
* a PostgreSQL + S3 variant (first part of src/index.js, identical to
  src/unnamed/part_000): multer memory storage with a 5 MiB limit and no
  fileFilter, `POST /api/upload-payment` storing the proof in S3 and the
  record in PostgreSQL, `GET /api/payments` listing all rows ordered by
  created_at descending;
* a SQLite + local-disk variant (second part of src/index.js): multer disk
  storage with a fileFilter restricted to image/jpeg, image/png, image/webp
  and the same 5 MiB limit.

External collaborators (S3 client, database driver, Resend email) are
modelled by an oracle describing the outcome of each call made during one
request; the handler is a pure function from the request and that oracle to
the HTTP response together with the ordered trace of collaborator calls.
-/

namespace Khairi

/-- A JavaScript value as it appears in the JSON response bodies built by
`res.json` (only the shapes the handlers actually produce). -/
inductive JsValue where
  | str (s : String)
  | num (n : Nat)
  | undef
  deriving Repr, DecidableEq

/-- `req.body` fields are strings when the multipart form supplied them and
`undefined` otherwise; this converts that to a `JsValue`. -/
def jsField : Option String → JsValue
  | none => .undef
  | some s => .str s

/-- The multer file descriptor (`req.file`): the fields the handlers read. -/
structure FileDesc where
  originalname : String
  mimetype : String
  size : Nat
  deriving Repr, DecidableEq

/-- One inbound `POST /api/upload-payment` request: the four form fields
(each possibly absent) and the optional attached file. -/
structure UploadRequest where
  name : Option String
  phone_number : Option String
  payment_method : Option String
  reason : Option String
  file : Option FileDesc
  deriving Repr, DecidableEq

/-- The configuration read from the environment by the PostgreSQL variant. -/
structure Config where
  s3Endpoint : String
  s3Bucket : String
  deriving Repr, DecidableEq

/-- Outcomes of the external-collaborator calls a single request may make:
`putResult = none` means `s3.send(PutObjectCommand ...)` resolves, otherwise
it rejects with the given message; `insertResult` is the `db.query` insert
returning an id or throwing; `emailResult = none` means
`sendPaymentNotificationEmail` resolves, otherwise it throws. -/
structure Collaborators where
  putResult : Option String
  insertResult : Except String Nat
  emailResult : Option String
  deriving Repr

/-- One observable call to an external collaborator, in the order the handler
makes them.  `put` is `s3.send(PutObjectCommand ...)`; `insert` is the
parameterised INSERT (fields as passed, `none` = SQL NULL for an undefined
body field); `notify` is the email send; `deleteObject` is an S3 delete,
present in the vocabulary although no handler ever issues one;
`diskSave` is multer disk storage writing the uploaded file (SQLite
variant). -/
inductive Effect where
  | put (key : String) (contentType : String) (ok : Bool)
  | insert (name phone_number payment_method reason : Option String)
      (proof_url : String) (ok : Bool)
  | notify (id : Nat) (name : Option String) (proofUrl : String) (ok : Bool)
  | deleteObject (key : String)
  | diskSave (filename : String)
  deriving Repr, DecidableEq

/-- The `data` object of the success response
(`{id, name, phone_number, payment_method, reason, proof_url}`),
as the ordered key/value list `res.json` receives. -/
def successData (id : Nat) (name phone_number payment_method reason : Option String)
    (proof_url : String) : List (String × JsValue) :=
  [("id", .num id), ("name", jsField name), ("phone_number", jsField phone_number),
   ("payment_method", jsField payment_method), ("reason", jsField reason),
   ("proof_url", .str proof_url)]

/-- Response bodies the upload pipeline produces: the 400 no-file body, the
catch-all 500 `{error: 'Server error', detail}`, a multer-layer rejection
surfaced by the framework's error handling (carrying multer's error code or
message), and the success body. -/
inductive RespBody where
  | noFile
  | serverError (detail : String)
  | multerError (code : String)
  | success (data : List (String × JsValue))
  deriving Repr, DecidableEq

/-- An HTTP response: status code and body. -/
structure HttpResponse where
  status : Nat
  body : RespBody
  deriving Repr, DecidableEq

/-! ### Object key generation (PostgreSQL variant, src/index.js:131-134)

`` `proof_${Date.now()}_${Math.random().toString(36).substring(2)}.${req.file.originalname.split('.').pop()}` ``

JavaScript's `String.prototype.split('.')` is embedded character by
character as `splitDot`; `.pop()` on its (always non-empty) result is the
last element. -/

/-- JavaScript `s.split('.')` on the character list of `s`: splits at every
`'.'`, keeping empty segments, and yields `[s]` when there is no dot
(`[""]` for the empty string). -/
def splitDot : List Char → List (List Char)
  | [] => [[]]
  | c :: cs =>
    if c = '.' then [] :: splitDot cs
    else
      match splitDot cs with
      | [] => [[c]]
      | p :: ps => (c :: p) :: ps

/-- `originalname.split('.').pop()`: the last segment of the dot-split. -/
def splitPop (s : String) : String :=
  String.mk (((splitDot s.data).getLast?).getD [])

/-- The generated S3 object key, with `Date.now()` and the
`Math.random().toString(36).substring(2)` token as parameters. -/
def fileName (now : Nat) (token : String) (originalname : String) : String :=
  "proof_" ++ toString now ++ "_" ++ token ++ "." ++ splitPop originalname

/-! ### POST /api/upload-payment, PostgreSQL variant (src/index.js:123-194) -/

/-- `` `${process.env.S3_ENDPOINT}/${process.env.S3_BUCKET}/${fileName}` `` -/
def fileUrl (cfg : Config) (key : String) : String :=
  cfg.s3Endpoint ++ "/" ++ cfg.s3Bucket ++ "/" ++ key

/-- The handler body of `POST /api/upload-payment` (PostgreSQL variant),
after multer: check `req.file`, generate the key, `await` the S3 put,
compute `fileUrl`, `await` the INSERT ... RETURNING id, try the email send
(its failure only logged), answer `res.json({success, data})`; any exception
from put or insert lands in the catch (`res.status(500)` with the error's
message).  Returns the response and the ordered trace of collaborator
calls. -/
def uploadPayment (cfg : Config) (now : Nat) (token : String)
    (req : UploadRequest) (c : Collaborators) : HttpResponse × List Effect :=
  match req.file with
  | none => (⟨400, .noFile⟩, [])
  | some f =>
    let key := fileName now token f.originalname
    match c.putResult with
    | some errMsg => (⟨500, .serverError errMsg⟩, [.put key f.mimetype false])
    | none =>
      let url := fileUrl cfg key
      match c.insertResult with
      | .error errMsg =>
        (⟨500, .serverError errMsg⟩,
         [.put key f.mimetype true,
          .insert req.name req.phone_number req.payment_method req.reason url false])
      | .ok paymentId =>
        (⟨200, .success (successData paymentId req.name req.phone_number
            req.payment_method req.reason url)⟩,
         [.put key f.mimetype true,
          .insert req.name req.phone_number req.payment_method req.reason url true,
          .notify paymentId req.name url c.emailResult.isNone])

/-- The multer file-size ceiling configured in both variants:
`limits: { fileSize: 5 * 1024 * 1024 }`. -/
def fileSizeLimit : Nat := 5 * 1024 * 1024

/-- The full PostgreSQL-variant pipeline: multer memory storage (no
fileFilter, only the size limit) runs before the handler; a file larger than
the limit makes multer raise LIMIT_FILE_SIZE, which the framework surfaces
as an error response before the handler body runs (so no collaborator is
called). -/
def processUpload (cfg : Config) (now : Nat) (token : String)
    (req : UploadRequest) (c : Collaborators) : HttpResponse × List Effect :=
  match req.file with
  | some f =>
    if f.size > fileSizeLimit then (⟨500, .multerError "LIMIT_FILE_SIZE"⟩, [])
    else uploadPayment cfg now token req c
  | none => uploadPayment cfg now token req c

/-! ### SQLite variant (src/index.js:399-504) -/

/-- `const allowedTypes = ['image/jpeg', 'image/png', 'image/webp']` of the
SQLite variant's multer fileFilter. -/
def allowedTypes : List String := ["image/jpeg", "image/png", "image/webp"]

/-- The SQLite variant's multer fileFilter error message. -/
def invalidFileTypeMsg : String :=
  "Invalid file type. Only JPEG, PNG, and WEBP are allowed."

/-- Outcome of the SQLite variant's multer stage. -/
inductive SqliteMulter where
  | noFile
  | rejectedType
  | rejectedSize
  | saved (filename : String)
  deriving Repr, DecidableEq

/-- The SQLite variant's multer stage: fileFilter on the declared mimetype,
then the 5 MiB limit; an accepted file is written to the uploads directory
under the disk-storage filename. -/
def sqliteMulterStage (filename : String) :
    Option FileDesc → SqliteMulter × List Effect
  | none => (.noFile, [])
  | some f =>
    if allowedTypes.contains f.mimetype then
      if f.size > fileSizeLimit then (.rejectedSize, [])
      else (.saved filename, [.diskSave filename])
    else (.rejectedType, [])

/-- Collaborator outcomes for one SQLite-variant request: the prepared
INSERT (`stmt.run`) yielding `this.lastID` or an error, and the email
send. -/
structure SqliteCollaborators where
  insertResult : Except String Nat
  emailResult : Option String
  deriving Repr

/-- The SQLite variant's handler body after multer: no-file check, proof URL
from protocol/host/filename, `stmt.run` insert (error answered with 500
`Failed to save data.`), email send in try/catch, then the 200 success
body. -/
def sqliteUploadPayment (baseUrl : String) (req : UploadRequest)
    (saved : SqliteMulter) (c : SqliteCollaborators) : HttpResponse × List Effect :=
  match saved with
  | .saved filename =>
    let proofUrl := baseUrl ++ "/uploads/" ++ filename
    match c.insertResult with
    | .error _ =>
      (⟨500, .serverError "Failed to save data."⟩,
       [.insert req.name req.phone_number req.payment_method req.reason proofUrl false])
    | .ok lastID =>
      (⟨200, .success (successData lastID req.name req.phone_number
          req.payment_method req.reason proofUrl)⟩,
       [.insert req.name req.phone_number req.payment_method req.reason proofUrl true,
        .notify lastID req.name proofUrl c.emailResult.isNone])
  | _ => (⟨400, .noFile⟩, [])

/-- The full SQLite-variant pipeline: the multer stage (fileFilter, size
limit, disk save) before the handler; a multer rejection is surfaced by the
framework as an error response and the handler body never runs. -/
def sqliteProcessUpload (baseUrl filename : String) (req : UploadRequest)
    (c : SqliteCollaborators) : HttpResponse × List Effect :=
  match sqliteMulterStage filename req.file with
  | (.rejectedType, effs) => (⟨500, .multerError invalidFileTypeMsg⟩, effs)
  | (.rejectedSize, effs) => (⟨500, .multerError "LIMIT_FILE_SIZE"⟩, effs)
  | (m, effs) => let (resp, hs) := sqliteUploadPayment baseUrl req m c
                 (resp, effs ++ hs)

/-! ### Effect-trace observations -/

/-- Is the effect an Object Store put? -/
def Effect.isPut : Effect → Bool
  | .put _ _ _ => true
  | _ => false

/-- Is the effect a Record Store insert? -/
def Effect.isInsert : Effect → Bool
  | .insert _ _ _ _ _ _ => true
  | _ => false

/-- Is the effect a notification send? -/
def Effect.isNotify : Effect → Bool
  | .notify _ _ _ _ => true
  | _ => false

/-- Is the effect an Object Store delete? -/
def Effect.isDelete : Effect → Bool
  | .deleteObject _ => true
  | _ => false

/-- Number of Object Store put calls in a trace. -/
def countPuts (l : List Effect) : Nat := (l.filter Effect.isPut).length

/-- Number of Record Store insert calls in a trace. -/
def countInserts (l : List Effect) : Nat := (l.filter Effect.isInsert).length

/-- Number of notification sends in a trace. -/
def countNotifies (l : List Effect) : Nat := (l.filter Effect.isNotify).length

/-- Number of Object Store delete calls in a trace. -/
def countDeletes (l : List Effect) : Nat := (l.filter Effect.isDelete).length

/-- Orchestrator step number of an effect: store = 0, persist = 1,
notify = 2 (compensation, which never occurs, would be 3). -/
def stepIdx : Effect → Nat
  | .put _ _ _ => 0
  | .diskSave _ => 0
  | .insert _ _ _ _ _ _ => 1
  | .notify _ _ _ _ => 2
  | .deleteObject _ => 3

/-- The proof_url values passed to Record Store inserts in a trace. -/
def insertUrls (l : List Effect) : List String :=
  l.filterMap fun e => match e with
    | .insert _ _ _ _ u _ => some u
    | _ => none

/-- Object Store contents after a trace, from an initial set of keys: a
successful put adds its key, a delete removes it. -/
def objectStoreAfter (init : List String) : List Effect → List String
  | [] => init
  | .put k _ true :: rest => objectStoreAfter (k :: init) rest
  | .deleteObject k :: rest => objectStoreAfter (init.erase k) rest
  | _ :: rest => objectStoreAfter init rest

/-! ### GET /api/payments (src/index.js:325-335) -/

/-- One row of the `payments` table (`created_at` as a timestamp value). -/
structure PaymentRow where
  id : Nat
  name : String
  phone_number : String
  payment_method : String
  reason : String
  proof_url : String
  created_at : Nat
  deriving Repr, DecidableEq

/-- Comparison realising `ORDER BY created_at DESC`: row `a` may come
before row `b` when `a.created_at ≥ b.created_at`. -/
def createdDesc (a b : PaymentRow) : Prop := b.created_at ≤ a.created_at

instance : DecidableRel createdDesc := fun a b =>
  inferInstanceAs (Decidable (b.created_at ≤ a.created_at))

instance : IsTotal PaymentRow createdDesc :=
  ⟨fun a b => Nat.le_total b.created_at a.created_at⟩

instance : IsTrans PaymentRow createdDesc :=
  ⟨fun _ _ _ h h2 => Nat.le_trans h2 h⟩

/-- `SELECT * FROM payments ORDER BY created_at DESC`: every row of the
table, sorted by `created_at` descending (ties in an unspecified relative
order, realised here by a concrete sort). -/
def selectAllOrdered (rows : List PaymentRow) : List PaymentRow :=
  rows.insertionSort createdDesc

/-- The `GET /api/payments` handler over the table's current rows:
`res.json({success: true, data: result.rows})` when the query succeeds,
500 `DB error` with the error's message when it throws. -/
def getPayments (rows : List PaymentRow) (dbErr : Option String) :
    Nat × Except String (List PaymentRow) :=
  match dbErr with
  | some msg => (500, .error msg)
  | none => (200, .ok (selectAllOrdered rows))

/-! ### Lemmas about the dot-split used by the Object Key Generator -/

theorem splitDot_ne_nil : ∀ l : List Char, splitDot l ≠ [] := by
  intro l
  induction l with
  | nil => simp [splitDot]
  | cons c cs ih =>
    by_cases hc : c = '.'
    · simp [splitDot, hc]
    · simp only [splitDot, if_neg hc]
      cases h : splitDot cs with
      | nil => simp
      | cons p ps => simp

theorem splitDot_of_not_mem {l : List Char} (h : '.' ∉ l) : splitDot l = [l] := by
  induction l with
  | nil => rfl
  | cons c cs ih =>
    have hc : c ≠ '.' := fun he => h (he ▸ List.mem_cons_self c cs)
    have hcs : '.' ∉ cs := fun hm => h (List.mem_cons_of_mem c hm)
    simp [splitDot, hc, ih hcs]

theorem two_le_length_splitDot {l : List Char} (h : '.' ∈ l) :
    2 ≤ (splitDot l).length := by
  induction l with
  | nil => cases h
  | cons c cs ih =>
    by_cases hc : c = '.'
    · simp only [splitDot, if_pos hc, List.length_cons]
      have := splitDot_ne_nil cs
      have : 1 ≤ (splitDot cs).length := by
        cases hl : splitDot cs with
        | nil => exact absurd hl this
        | cons p ps => simp
      omega
    · have hcs : '.' ∈ cs := by
        rcases List.mem_cons.mp h with he | hm
        · exact absurd he.symm hc
        · exact hm
      simp only [splitDot, if_neg hc]
      cases hl : splitDot cs with
      | nil => exact absurd hl (splitDot_ne_nil cs)
      | cons p ps =>
        have := ih hcs
        rw [hl] at this
        simpa using this

theorem getLast?_splitDot_append (xs ys : List Char) :
    (splitDot (xs ++ '.' :: ys)).getLast? = (splitDot ys).getLast? := by
  induction xs with
  | nil =>
    simp only [List.nil_append, splitDot, if_pos rfl]
    cases hl : splitDot ys with
    | nil => exact absurd hl (splitDot_ne_nil ys)
    | cons p ps => simp
  | cons c cs ih =>
    by_cases hc : c = '.'
    · simp only [List.cons_append, splitDot, if_pos hc]
      cases hl : splitDot (cs ++ '.' :: ys) with
      | nil => exact absurd hl (splitDot_ne_nil _)
      | cons p ps =>
        rw [hl] at ih
        simpa using ih
    · simp only [List.cons_append, splitDot, if_neg hc]
      have hmem : '.' ∈ cs ++ '.' :: ys :=
        List.mem_append.mpr (Or.inr (List.mem_cons_self _ _))
      cases hl : splitDot (cs ++ '.' :: ys) with
      | nil => exact absurd hl (splitDot_ne_nil _)
      | cons p ps =>
        have h2 := two_le_length_splitDot hmem
        rw [hl] at h2 ih
        cases ps with
        | nil => simp at h2
        | cons q qs => simpa using ih

theorem splitPop_of_no_dot {orig : String} (h : '.' ∉ orig.data) :
    splitPop orig = orig := by
  cases orig with
  | mk data => simp [splitPop, splitDot_of_not_mem h]

theorem splitPop_append_ext (base ext : String) (h : '.' ∉ ext.data) :
    splitPop (base ++ "." ++ ext) = ext := by
  have hdata : (base ++ "." ++ ext).data = base.data ++ '.' :: ext.data := by
    simp [String.data_append]
  cases ext with
  | mk ed =>
    simp only [splitPop, hdata, getLast?_splitDot_append, splitDot_of_not_mem h]
    rfl

/-! ### Concrete sample inputs -/

/-- Sample configuration (endpoint and bucket). -/
def sampleCfg : Config := ⟨"https://objstore.leapcell.io", "payments"⟩

/-- Sample attached image file. -/
def sampleFile : FileDesc := ⟨"bukti.png", "image/png", 2048⟩

/-- Sample fully-populated submission. -/
def sampleReq : UploadRequest :=
  ⟨some "Sari", some "0812", some "bank_transfer", some "order #4", some sampleFile⟩

/-- Submission whose four form fields are all present but empty. -/
def emptyFieldsReq : UploadRequest :=
  ⟨some "", some "", some "", some "", some sampleFile⟩

/-- Sample PDF attachment (content type outside the image allow-list). -/
def pdfFile : FileDesc := ⟨"bukti.pdf", "application/pdf", 2048⟩

/-- Sample submission carrying the PDF attachment. -/
def pdfReq : UploadRequest :=
  ⟨some "Sari", some "0812", some "bank_transfer", some "order #4", some pdfFile⟩

/-! ### Claim theorems -/

/-- C1: when the Object Store put fails, the whole submission is aborted
with the storage-failure error response (HTTP 500 carrying the thrown
message): no Record Store insert is performed and no notification is sent,
only the single failed put appears in the trace; and on every input the
orchestrator's trace is strictly ordered store-before-persist-before-notify
(each step at most once, no later step before the prior completes). -/
theorem storage_failure_aborts :
    (∀ cfg now token req c f errMsg, req.file = some f → c.putResult = some errMsg →
      (uploadPayment cfg now token req c).1 = ⟨500, .serverError errMsg⟩ ∧
      (uploadPayment cfg now token req c).2 =
        [.put (fileName now token f.originalname) f.mimetype false] ∧
      countInserts (uploadPayment cfg now token req c).2 = 0 ∧
      countNotifies (uploadPayment cfg now token req c).2 = 0) ∧
    (∀ cfg now token req c,
      ((uploadPayment cfg now token req c).2).Chain' (fun a b => stepIdx a < stepIdx b)) := by
  constructor
  · intro cfg now token req c f errMsg hf hp
    simp [uploadPayment, hf, hp, countInserts, countNotifies, Effect.isInsert,
      Effect.isNotify, List.filter]
  · intro cfg now token req c
    unfold uploadPayment
    cases req.file with
    | none => simp
    | some f =>
      cases c.putResult with
      | some e => simp [stepIdx]
      | none =>
        cases c.insertResult with
        | error e => simp [stepIdx]
        | ok id => simp [stepIdx]

/-- C1 witness at a concrete failing put. -/
theorem storage_failure_aborts_witness :
    (uploadPayment sampleCfg 17 "tok" sampleReq ⟨some "boom", .ok 1, none⟩).1 =
      ⟨500, .serverError "boom"⟩ ∧
    (uploadPayment sampleCfg 17 "tok" sampleReq ⟨some "boom", .ok 1, none⟩).2 =
      [.put (fileName 17 "tok" "bukti.png") "image/png" false] ∧
    countInserts (uploadPayment sampleCfg 17 "tok" sampleReq ⟨some "boom", .ok 1, none⟩).2 = 0 ∧
    countNotifies (uploadPayment sampleCfg 17 "tok" sampleReq ⟨some "boom", .ok 1, none⟩).2 = 0 :=
  storage_failure_aborts.1 sampleCfg 17 "tok" sampleReq ⟨some "boom", .ok 1, none⟩
    sampleFile "boom" rfl rfl

/-- C2: when storage and persistence succeed, the HTTP response is the same
whether the email notification fails or succeeds, and equals the success
response carrying the record data. -/
theorem notifier_failure_isolated (cfg : Config) (now : Nat) (token : String)
    (req : UploadRequest) (f : FileDesc) (id : Nat) (e : Option String)
    (hf : req.file = some f) :
    (uploadPayment cfg now token req ⟨none, .ok id, e⟩).1 =
      (uploadPayment cfg now token req ⟨none, .ok id, none⟩).1 ∧
    (uploadPayment cfg now token req ⟨none, .ok id, e⟩).1 =
      ⟨200, .success (successData id req.name req.phone_number req.payment_method
        req.reason (fileUrl cfg (fileName now token f.originalname)))⟩ := by
  constructor <;> simp [uploadPayment, hf]

/-- C2 witness: a failing notifier at a concrete successful submission. -/
theorem notifier_failure_isolated_witness :
    (uploadPayment sampleCfg 17 "tok" sampleReq ⟨none, .ok 1, some "smtp down"⟩).1 =
      (uploadPayment sampleCfg 17 "tok" sampleReq ⟨none, .ok 1, none⟩).1 ∧
    (uploadPayment sampleCfg 17 "tok" sampleReq ⟨none, .ok 1, some "smtp down"⟩).1 =
      ⟨200, .success (successData 1 (some "Sari") (some "0812") (some "bank_transfer")
        (some "order #4") (fileUrl sampleCfg (fileName 17 "tok" "bukti.png")))⟩ :=
  notifier_failure_isolated sampleCfg 17 "tok" sampleReq sampleFile 1 (some "smtp down") rfl

/-- C3 counterexample: a submission whose four required fields are all
empty strings is not rejected — the handler answers 200 success and makes
one Object Store put and one Record Store insert, contradicting "rejected
with MissingField before any Object Store or Record Store call". -/
theorem missing_fields_accepted_cex :
    (processUpload sampleCfg 17 "tok" emptyFieldsReq ⟨none, .ok 1, none⟩).1.status = 200 ∧
    countPuts (processUpload sampleCfg 17 "tok" emptyFieldsReq ⟨none, .ok 1, none⟩).2 = 1 ∧
    countInserts (processUpload sampleCfg 17 "tok" emptyFieldsReq ⟨none, .ok 1, none⟩).2 = 1 :=
  ⟨rfl, rfl, rfl⟩

/-- C3 amended: the handler performs no required-field validation at all.
The only intake check before the side effects is the file-presence check
(400, no collaborator called); with a file attached the put and insert
proceed whatever the four form fields hold — absent, empty or populated. -/
theorem no_required_field_validation :
    (∀ cfg now token req c, req.file = none →
      uploadPayment cfg now token req c = (⟨400, .noFile⟩, [])) ∧
    (∀ cfg now token (name phone pm reason : Option String) f id e,
      (uploadPayment cfg now token ⟨name, phone, pm, reason, some f⟩ ⟨none, .ok id, e⟩).1.status
        = 200 ∧
      countPuts (uploadPayment cfg now token ⟨name, phone, pm, reason, some f⟩
        ⟨none, .ok id, e⟩).2 = 1 ∧
      countInserts (uploadPayment cfg now token ⟨name, phone, pm, reason, some f⟩
        ⟨none, .ok id, e⟩).2 = 1) := by
  constructor
  · intro cfg now token req c hf
    simp [uploadPayment, hf]
  · intro cfg now token name phone pm reason f id e
    simp [uploadPayment, countPuts, countInserts, Effect.isPut, Effect.isInsert, List.filter]

/-- C3 amended witness: the no-file rejection and an all-fields-absent
submission that still reaches both stores. -/
theorem no_required_field_validation_witness :
    uploadPayment sampleCfg 17 "tok" ⟨none, none, none, none, none⟩ ⟨none, .ok 1, none⟩ =
      (⟨400, .noFile⟩, []) ∧
    (uploadPayment sampleCfg 17 "tok" ⟨none, none, none, none, some sampleFile⟩
      ⟨none, .ok 1, none⟩).1.status = 200 :=
  ⟨no_required_field_validation.1 sampleCfg 17 "tok" ⟨none, none, none, none, none⟩
      ⟨none, .ok 1, none⟩ rfl,
   (no_required_field_validation.2 sampleCfg 17 "tok" none none none none sampleFile 1 none).1⟩

/-- C4 counterexample: in the PostgreSQL variant (which configures no
multer fileFilter) a submission whose file declares content type
application/pdf is not rejected — it is answered 200 with one Object Store
put, contradicting "rejected with UnsupportedMediaType and no store
call". -/
theorem pdf_accepted_by_pg_variant_cex :
    (processUpload sampleCfg 17 "tok" pdfReq ⟨none, .ok 1, none⟩).1.status = 200 ∧
    countPuts (processUpload sampleCfg 17 "tok" pdfReq ⟨none, .ok 1, none⟩).2 = 1 ∧
    countInserts (processUpload sampleCfg 17 "tok" pdfReq ⟨none, .ok 1, none⟩).2 = 1 :=
  ⟨rfl, rfl, rfl⟩

/-- C4 amended: only the SQLite variant enforces the image allow-list — its
multer fileFilter rejects a file whose declared content type is not
image/jpeg, image/png or image/webp before the handler runs, so no store,
persist or notify call is made; the PostgreSQL variant has no fileFilter
and accepts any declared content type. -/
theorem sqlite_filefilter_rejects (baseUrl filename : String) (req : UploadRequest)
    (f : FileDesc) (c : SqliteCollaborators) (hf : req.file = some f)
    (hm : allowedTypes.contains f.mimetype = false) :
    sqliteProcessUpload baseUrl filename req c =
      (⟨500, .multerError invalidFileTypeMsg⟩, []) := by
  have hm' : f.mimetype ∉ allowedTypes := by simpa using hm
  simp [sqliteProcessUpload, sqliteMulterStage, hf, hm']

/-- C4 amended witness: the PDF attachment in the SQLite pipeline. -/
theorem sqlite_filefilter_rejects_witness :
    sqliteProcessUpload "http://localhost:3000" "proof_17-42.pdf" pdfReq ⟨.ok 1, none⟩ =
      (⟨500, .multerError invalidFileTypeMsg⟩, []) :=
  sqlite_filefilter_rejects "http://localhost:3000" "proof_17-42.pdf" pdfReq pdfFile
    ⟨.ok 1, none⟩ rfl rfl

/-- Character-wise lowercasing of a string. -/
def lowerStr (s : String) : String := String.mk (s.data.map Char.toLower)

/-- Modelled from the spec: the Object Key Generator contract of §4.2 — key
= `proof_` + current-time-in-milliseconds + `_` + a short random token +
`.` + the lowercase extension taken from the original filename, the
extension defaulting to empty when the original name has none. -/
def specObjectKey (now : Nat) (token : String) (originalname : String) : String :=
  let ext := if '.' ∈ originalname.data then lowerStr (splitPop originalname) else ""
  "proof_" ++ toString now ++ "_" ++ token ++ "." ++ ext

/-- C5 counterexample: the generated key differs from the spec's formula —
for an extensionless name the code appends the whole filename instead of an
empty extension, and an uppercase extension is kept uppercase instead of
lowercased. -/
theorem object_key_differs_from_spec_cex :
    fileName 17 "tok" "photo" ≠ specObjectKey 17 "tok" "photo" ∧
    fileName 17 "tok" "bukti.PNG" ≠ specObjectKey 17 "tok" "bukti.PNG" := by
  constructor <;> decide

/-- C5 amended: the key is `proof_` + time-in-ms + `_` + token + `.` + the
last dot-separated segment of the original filename with its case preserved
(not lowercased); when the original name contains no dot that segment is
the entire original filename, not the empty string. -/
theorem object_key_shape :
    (∀ now token (orig : String), '.' ∉ orig.data →
      fileName now token orig =
        "proof_" ++ toString now ++ "_" ++ token ++ "." ++ orig) ∧
    (∀ now token (base ext : String), '.' ∉ ext.data →
      fileName now token (base ++ "." ++ ext) =
        "proof_" ++ toString now ++ "_" ++ token ++ "." ++ ext) := by
  constructor
  · intro now token orig h
    rw [fileName, splitPop_of_no_dot h]
  · intro now token base ext h
    rw [fileName, splitPop_append_ext base ext h]

/-- C5 amended witness: an extensionless name and an uppercase-extension
name at concrete inputs. -/
theorem object_key_shape_witness :
    fileName 17 "tok" "photo" = "proof_17_tok.photo" ∧
    fileName 17 "tok" "bukti.PNG" = "proof_17_tok.PNG" := by
  constructor
  · have h := object_key_shape.1 17 "tok" "photo" (by decide)
    simpa using h
  · have h := object_key_shape.2 17 "tok" "bukti" "PNG" (by decide)
    simpa using h

/-- C6: when the insert fails after a successful put, the handler answers
the 500 persistence-failure response carrying the insert error's message,
the Object Store put happened exactly once (no retry), no compensating
delete is issued, and the Object Store afterwards still holds the newly
stored (now orphaned) object on top of its previous contents. -/
theorem persistence_failure_no_rollback (cfg : Config) (now : Nat) (token : String)
    (req : UploadRequest) (c : Collaborators) (f : FileDesc) (errMsg : String)
    (init : List String) (hf : req.file = some f) (hput : c.putResult = none)
    (hins : c.insertResult = .error errMsg) :
    (uploadPayment cfg now token req c).1 = ⟨500, .serverError errMsg⟩ ∧
    countPuts (uploadPayment cfg now token req c).2 = 1 ∧
    countNotifies (uploadPayment cfg now token req c).2 = 0 ∧
    countDeletes (uploadPayment cfg now token req c).2 = 0 ∧
    objectStoreAfter init (uploadPayment cfg now token req c).2 =
      fileName now token f.originalname :: init := by
  simp [uploadPayment, hf, hput, hins, countPuts, countNotifies, countDeletes,
    Effect.isPut, Effect.isNotify, Effect.isDelete, List.filter, objectStoreAfter]

/-- C6 witness at a concrete failing insert after a successful put. -/
theorem persistence_failure_no_rollback_witness :
    (uploadPayment sampleCfg 17 "tok" sampleReq ⟨none, .error "db down", none⟩).1 =
      ⟨500, .serverError "db down"⟩ ∧
    countPuts (uploadPayment sampleCfg 17 "tok" sampleReq ⟨none, .error "db down", none⟩).2 = 1 ∧
    countNotifies (uploadPayment sampleCfg 17 "tok" sampleReq
      ⟨none, .error "db down", none⟩).2 = 0 ∧
    countDeletes (uploadPayment sampleCfg 17 "tok" sampleReq
      ⟨none, .error "db down", none⟩).2 = 0 ∧
    objectStoreAfter ["old"] (uploadPayment sampleCfg 17 "tok" sampleReq
      ⟨none, .error "db down", none⟩).2 = fileName 17 "tok" "bukti.png" :: ["old"] :=
  persistence_failure_no_rollback sampleCfg 17 "tok" sampleReq
    ⟨none, .error "db down", none⟩ sampleFile "db down" ["old"] rfl rfl rfl

/-- C7 counterexample: a fully successful concrete submission whose
success body holds exactly the keys id, name, phone_number, payment_method,
reason and proof_url — the store-assigned created_at timestamp is not part
of the returned record. -/
theorem response_lacks_created_at_cex :
    (processUpload sampleCfg 17 "tok" sampleReq ⟨none, .ok 1, none⟩).1.body =
      .success [("id", .num 1), ("name", .str "Sari"), ("phone_number", .str "0812"),
        ("payment_method", .str "bank_transfer"), ("reason", .str "order #4"),
        ("proof_url", .str "https://objstore.leapcell.io/payments/proof_17_tok.png")] ∧
    "created_at" ∉ ([("id", JsValue.num 1), ("name", .str "Sari"),
        ("phone_number", .str "0812"), ("payment_method", .str "bank_transfer"),
        ("reason", .str "order #4"),
        ("proof_url", .str "https://objstore.leapcell.io/payments/proof_17_tok.png")].map
          Prod.fst) := by
  constructor
  · rfl
  · decide

/-- C7 amended: every successful submission is answered with the record
draft plus the store-assigned id and the computed proof_url — the data
object's keys are exactly id, name, phone_number, payment_method, reason,
proof_url, and the store-assigned created_at timestamp is absent. -/
theorem success_response_contents (cfg : Config) (now : Nat) (token : String)
    (req : UploadRequest) (f : FileDesc) (id : Nat) (e : Option String)
    (hf : req.file = some f) :
    (uploadPayment cfg now token req ⟨none, .ok id, e⟩).1 =
      ⟨200, .success (successData id req.name req.phone_number req.payment_method
        req.reason (fileUrl cfg (fileName now token f.originalname)))⟩ ∧
    (successData id req.name req.phone_number req.payment_method req.reason
        (fileUrl cfg (fileName now token f.originalname))).lookup "id" =
      some (.num id) ∧
    (successData id req.name req.phone_number req.payment_method req.reason
        (fileUrl cfg (fileName now token f.originalname))).map Prod.fst =
      ["id", "name", "phone_number", "payment_method", "reason", "proof_url"] ∧
    "created_at" ∉ (successData id req.name req.phone_number req.payment_method req.reason
        (fileUrl cfg (fileName now token f.originalname))).map Prod.fst := by
  refine ⟨by simp [uploadPayment, hf], rfl, rfl, by simp [successData]⟩

/-- C7 amended witness at a concrete successful submission. -/
theorem success_response_contents_witness :
    (uploadPayment sampleCfg 17 "tok" sampleReq ⟨none, .ok 1, none⟩).1 =
      ⟨200, .success (successData 1 (some "Sari") (some "0812") (some "bank_transfer")
        (some "order #4") (fileUrl sampleCfg (fileName 17 "tok" "bukti.png")))⟩ ∧
    "created_at" ∉ (successData 1 (some "Sari") (some "0812") (some "bank_transfer")
        (some "order #4") (fileUrl sampleCfg (fileName 17 "tok" "bukti.png"))).map Prod.fst :=
  ⟨(success_response_contents sampleCfg 17 "tok" sampleReq sampleFile 1 none rfl).1,
   (success_response_contents sampleCfg 17 "tok" sampleReq sampleFile 1 none rfl).2.2.2⟩

/-- C8: a file strictly larger than the configured 5 MiB ceiling is
rejected by the multer layer with the LIMIT_FILE_SIZE error before any
collaborator call, in both variants (in the SQLite variant for any
allow-listed content type); a file at or below the ceiling is never
rejected for size in the PostgreSQL pipeline. -/
theorem file_too_large_rejected :
    (∀ cfg now token req c (f : FileDesc), req.file = some f → f.size > fileSizeLimit →
      processUpload cfg now token req c = (⟨500, .multerError "LIMIT_FILE_SIZE"⟩, [])) ∧
    (∀ cfg now token req c (f : FileDesc), req.file = some f → f.size ≤ fileSizeLimit →
      ∀ s, (processUpload cfg now token req c).1.body ≠ .multerError s) ∧
    (∀ baseUrl fn req c (f : FileDesc), req.file = some f → f.size > fileSizeLimit →
      allowedTypes.contains f.mimetype = true →
      sqliteProcessUpload baseUrl fn req c =
        (⟨500, .multerError "LIMIT_FILE_SIZE"⟩, [])) := by
  refine ⟨?_, ?_, ?_⟩
  · intro cfg now token req c f hf hsize
    simp [processUpload, hf, hsize]
  · intro cfg now token req c f hf hsize s
    have hsize' : ¬ (f.size > fileSizeLimit) := by omega
    simp only [processUpload, hf, if_neg hsize']
    unfold uploadPayment
    rw [hf]
    cases c.putResult with
    | some e => simp
    | none =>
      cases c.insertResult with
      | error e => simp
      | ok id => simp
  · intro baseUrl fn req c f hf hsize hm
    have hm' : f.mimetype ∈ allowedTypes := by simpa using hm
    simp [sqliteProcessUpload, sqliteMulterStage, hf, hm', hsize]

/-- C8 witness: a 6 MiB upload is rejected in both pipelines; the 2 KB
sample is not size-rejected. -/
theorem file_too_large_rejected_witness :
    processUpload sampleCfg 17 "tok"
      ⟨some "Sari", some "0812", some "bank_transfer", some "order #4",
        some ⟨"big.png", "image/png", 6 * 1024 * 1024⟩⟩ ⟨none, .ok 1, none⟩ =
      (⟨500, .multerError "LIMIT_FILE_SIZE"⟩, []) ∧
    (processUpload sampleCfg 17 "tok" sampleReq ⟨none, .ok 1, none⟩).1.body ≠
      .multerError "LIMIT_FILE_SIZE" ∧
    sqliteProcessUpload "http://localhost:3000" "proof_17-42.png"
      ⟨some "Sari", some "0812", some "bank_transfer", some "order #4",
        some ⟨"big.png", "image/png", 6 * 1024 * 1024⟩⟩ ⟨.ok 1, none⟩ =
      (⟨500, .multerError "LIMIT_FILE_SIZE"⟩, []) :=
  ⟨file_too_large_rejected.1 sampleCfg 17 "tok" _ ⟨none, .ok 1, none⟩
      ⟨"big.png", "image/png", 6 * 1024 * 1024⟩ rfl (by decide),
   file_too_large_rejected.2.1 sampleCfg 17 "tok" sampleReq ⟨none, .ok 1, none⟩
      sampleFile rfl (by decide) "LIMIT_FILE_SIZE",
   file_too_large_rejected.2.2 "http://localhost:3000" "proof_17-42.png" _ ⟨.ok 1, none⟩
      ⟨"big.png", "image/png", 6 * 1024 * 1024⟩ rfl (by decide) rfl⟩

/-- C9: for any table contents, a successful `GET /api/payments` answers
200 with exactly the rows produced by `ORDER BY created_at DESC`: a
permutation of all rows of the table (nothing filtered, nothing paginated,
length preserved) sorted by created_at descending. -/
theorem list_payments_ordered (rows : List PaymentRow) :
    (getPayments rows none).1 = 200 ∧
    (getPayments rows none).2 = .ok (selectAllOrdered rows) ∧
    (selectAllOrdered rows).Perm rows ∧
    (selectAllOrdered rows).length = rows.length ∧
    (selectAllOrdered rows).Sorted createdDesc :=
  ⟨rfl, rfl, List.perm_insertionSort createdDesc rows,
   (List.perm_insertionSort createdDesc rows).length_eq,
   List.sorted_insertionSort createdDesc rows⟩

/-- C10: on every successful submission the proof_url of the response body,
the proof_url passed to the single Record Store insert, and the URL
computed once as endpoint/bucket/key all coincide. -/
theorem proof_url_single_source (cfg : Config) (now : Nat) (token : String)
    (req : UploadRequest) (f : FileDesc) (id : Nat) (e : Option String)
    (hf : req.file = some f) :
    (successData id req.name req.phone_number req.payment_method req.reason
        (fileUrl cfg (fileName now token f.originalname))).lookup "proof_url" =
      some (.str (fileUrl cfg (fileName now token f.originalname))) ∧
    (uploadPayment cfg now token req ⟨none, .ok id, e⟩).1.body =
      .success (successData id req.name req.phone_number req.payment_method req.reason
        (fileUrl cfg (fileName now token f.originalname))) ∧
    insertUrls (uploadPayment cfg now token req ⟨none, .ok id, e⟩).2 =
      [fileUrl cfg (fileName now token f.originalname)] ∧
    fileUrl cfg (fileName now token f.originalname) =
      cfg.s3Endpoint ++ "/" ++ cfg.s3Bucket ++ "/" ++ fileName now token f.originalname := by
  refine ⟨rfl, by simp [uploadPayment, hf], ?_, rfl⟩
  simp [uploadPayment, hf, insertUrls]

/-- C10 witness at a concrete successful submission. -/
theorem proof_url_single_source_witness :
    (uploadPayment sampleCfg 17 "tok" sampleReq ⟨none, .ok 1, none⟩).1.body =
      .success (successData 1 (some "Sari") (some "0812") (some "bank_transfer")
        (some "order #4") (fileUrl sampleCfg (fileName 17 "tok" "bukti.png"))) ∧
    insertUrls (uploadPayment sampleCfg 17 "tok" sampleReq ⟨none, .ok 1, none⟩).2 =
      [fileUrl sampleCfg (fileName 17 "tok" "bukti.png")] :=
  ⟨(proof_url_single_source sampleCfg 17 "tok" sampleReq sampleFile 1 none rfl).2.1,
   (proof_url_single_source sampleCfg 17 "tok" sampleReq sampleFile 1 none rfl).2.2.1⟩

end Khairi
